import Mathlib

/-!
Verification of the reservation/review core of a restaurant-booking service.

The development shallowly embeds the JavaScript source:
  * the helpers of the reservations controller (parseHHMMToSeconds,
    normalizeISO, isWithinWorkingHours, parseIncomingToJSDate),
  * the controller actions addReservation, updateReservation, markCompleted,
  * the review controller action createReview,
  * the rating aggregation updateRestaurantRating of the Review model.

JavaScript strings are Lean strings (worked on through their character
lists); epoch milliseconds are integers; the Luxon timezone conversion is
an abstract environment (`TimeEnv`).  JS numbers arising from parsing are
exact fractions (`JSRat`, an unreduced integer-over-natural fraction so
that every operation is kernel-computable); the IEEE-754 rounding of a
double is not modelled — every value relevant to the theorems below is a
small integer or a short decimal, where double arithmetic is exact.
-/

/-- An unreduced fraction `num / den` representing a finite JS number.
Every constructor in this file keeps `den` positive. -/
structure JSRat where
  num : Int
  den : Nat
deriving DecidableEq, Repr

instance (n : Nat) : OfNat JSRat n := ⟨⟨n, 1⟩⟩

namespace JSRat

/-- The rational value of the fraction. -/
def toRat (a : JSRat) : ℚ := (a.num : ℚ) / (a.den : ℚ)

def add (a b : JSRat) : JSRat := ⟨a.num * b.den + b.num * a.den, a.den * b.den⟩

def mulNat (a : JSRat) (n : Nat) : JSRat := ⟨a.num * n, a.den⟩

def divNat (a : JSRat) (n : Nat) : JSRat := ⟨a.num, a.den * n⟩

def neg (a : JSRat) : JSRat := ⟨-a.num, a.den⟩

/-- `a ≤ b` by cross multiplication (exact for positive denominators). -/
def ble (a b : JSRat) : Bool := decide (a.num * (b.den : Int) ≤ b.num * (a.den : Int))

/-- `a < b` by cross multiplication (exact for positive denominators). -/
def blt (a b : JSRat) : Bool := decide (a.num * (b.den : Int) < b.num * (a.den : Int))

theorem toRat_mk (n : Int) (d : Nat) : toRat ⟨n, d⟩ = (n : ℚ) / (d : ℚ) := rfl

theorem ble_iff_toRat {a b : JSRat} (ha : 0 < a.den) (hb : 0 < b.den) :
    a.ble b = true ↔ a.toRat ≤ b.toRat := by
  have ha2 : (0 : ℚ) < (a.den : ℚ) := by exact_mod_cast ha
  have hb2 : (0 : ℚ) < (b.den : ℚ) := by exact_mod_cast hb
  rw [ble, decide_eq_true_eq, toRat, toRat, div_le_div_iff₀ ha2 hb2]
  exact_mod_cast Iff.rfl

theorem blt_iff_toRat {a b : JSRat} (ha : 0 < a.den) (hb : 0 < b.den) :
    a.blt b = true ↔ a.toRat < b.toRat := by
  have ha2 : (0 : ℚ) < (a.den : ℚ) := by exact_mod_cast ha
  have hb2 : (0 : ℚ) < (b.den : ℚ) := by exact_mod_cast hb
  rw [blt, decide_eq_true_eq, toRat, toRat, div_lt_div_iff₀ ha2 hb2]
  exact_mod_cast Iff.rfl

end JSRat

/-- Whitespace accepted by the JS `Number` coercion before/after the digits
(the common StrWhiteSpace characters; exotic Unicode spaces are omitted,
none of which occur in any input considered here). -/
def isJsSpace (c : Char) : Bool :=
  c = ' ' || c = '\t' || c = '\n' || c = '\r' ||
  c = '\x0b' || c = '\x0c' || c = ' '

/-- Strip leading and trailing JS whitespace, as `Number(string)` does. -/
def jsTrim (cs : List Char) : List Char :=
  ((cs.dropWhile isJsSpace).reverse.dropWhile isJsSpace).reverse

/-- Value of a list of decimal digit characters, most significant first. -/
def digitsVal (cs : List Char) : ℕ :=
  cs.foldl (fun a c => a * 10 + (c.toNat - 48)) 0

def isHexDigitChar (c : Char) : Bool :=
  c.isDigit || ('a' ≤ c && c ≤ 'f') || ('A' ≤ c && c ≤ 'F')

def hexDigitVal (c : Char) : ℕ :=
  if c.isDigit then c.toNat - 48
  else if 'a' ≤ c && c ≤ 'f' then c.toNat - 87
  else c.toNat - 55

/-- Parse a non-empty all-digit tail in the given radix (the `0x`/`0o`/`0b`
forms of a JS numeric string); `none` models NaN. -/
def radixVal (base : ℕ) (isD : Char → Bool) (val : Char → ℕ) (ds : List Char) : Option JSRat :=
  if ds = [] then none
  else if ds.all isD then some ⟨(ds.foldl (fun a c => a * base + val c) 0 : ℕ), 1⟩
  else none

/-- Apply a decimal exponent `e±ddd` tail to an already-parsed mantissa. -/
def applyExpDigits (v : JSRat) (negExp : Bool) (ds : List Char) : Option JSRat :=
  if ds = [] then none
  else if ds.all Char.isDigit then
    some (if negExp then ⟨v.num, v.den * 10 ^ digitsVal ds⟩ else ⟨v.num * 10 ^ digitsVal ds, v.den⟩)
  else none

/-- Consume an optional exponent part of a JS decimal literal; anything else
left over makes the whole string NaN (`none`). -/
def applyExpPart (v : JSRat) : List Char → Option JSRat
  | [] => some v
  | e :: rest =>
    if e = 'e' || e = 'E' then
      match rest with
      | c :: rest2 =>
        if c = '+' then applyExpDigits v false rest2
        else if c = '-' then applyExpDigits v true rest2
        else applyExpDigits v false rest
      | [] => none
    else none

/-- Unsigned JS decimal literal: `digits`, `digits.digits`, `.digits`,
each with an optional exponent.  `none` models NaN. -/
def parseUnsignedDec (cs : List Char) : Option JSRat :=
  let intPart := cs.takeWhile Char.isDigit
  let r1 := cs.dropWhile Char.isDigit
  match r1 with
  | c :: r2 =>
    if c = '.' then
      let fracPart := r2.takeWhile Char.isDigit
      let r3 := r2.dropWhile Char.isDigit
      if intPart = [] ∧ fracPart = [] then none
      else applyExpPart ⟨digitsVal intPart * 10 ^ fracPart.length + digitsVal fracPart,
                         10 ^ fracPart.length⟩ r3
    else if intPart = [] then none
    else applyExpPart ⟨digitsVal intPart, 1⟩ r1
  | [] => if intPart = [] then none else some ⟨digitsVal intPart, 1⟩

/-- Body of a signed JS decimal literal.  `Infinity` is non-finite, and the
code under verification only ever asks `Number.isFinite`, so it is
identified with NaN as `none`. -/
def parseSignedBody (cs : List Char) : Option JSRat :=
  if cs = "Infinity".data then none else parseUnsignedDec cs

/-- Model of the JS `Number(string)` coercion used by `parseHHMMToSeconds`
(`src/unnamed/part_000` line 11): trim, empty string is `0`, optional sign
on a decimal literal, unsigned `0x`/`0o`/`0b` literals; `none` models a
non-finite result (NaN or an infinity). -/
def jsNumber (cs0 : List Char) : Option JSRat :=
  let cs := jsTrim cs0
  match cs with
  | [] => some 0
  | c :: rest =>
    if c = '0' then
      match rest with
      | x :: ds =>
        if x = 'x' || x = 'X' then radixVal 16 isHexDigitChar hexDigitVal ds
        else if x = 'o' || x = 'O' then radixVal 8 (fun d => '0' ≤ d && d ≤ '7') (fun d => d.toNat - 48) ds
        else if x = 'b' || x = 'B' then radixVal 2 (fun d => d = '0' || d = '1') (fun d => d.toNat - 48) ds
        else parseUnsignedDec cs
      | [] => parseUnsignedDec cs
    else if c = '+' then parseSignedBody rest
    else if c = '-' then (parseSignedBody rest).map JSRat.neg
    else parseSignedBody cs

/-- `String.prototype.split(':')`: cut at every colon, keeping empty
segments. -/
def splitOnColon : List Char → List (List Char)
  | [] => [[]]
  | c :: rest =>
    let r := splitOnColon rest
    if c = ':' then [] :: r
    else
      match r with
      | [] => [[c]]
      | g :: gs => (c :: g) :: gs

/-- Range check and conversion of the three parsed clock components
(`src/unnamed/part_000` lines 15-16). -/
def hmsToSeconds (hh mm ss : JSRat) : Option JSRat :=
  if hh.blt 0 || JSRat.blt 23 hh || mm.blt 0 || JSRat.blt 59 mm || ss.blt 0 || JSRat.blt 59 ss
  then none
  else some (((hh.mulNat 3600).add (mm.mulNat 60)).add ss)

/-- `parseHHMMToSeconds` of `src/unnamed/part_000` lines 9-17: split on
colons, coerce each part with `Number`, require 2 or 3 finite parts
(a missing third part defaults to 0), range-check, and convert to seconds
since midnight.  `none` is the JS `null`. -/
def parseHHMMToSeconds (hhmm : String) : Option JSRat :=
  if hhmm.data = [] then none
  else
    let parts := (splitOnColon hhmm.data).map jsNumber
    match parts with
    | [some hh, some mm] => hmsToSeconds hh mm 0
    | [some hh, some mm, some ss] => hmsToSeconds hh mm ss
    | [_, _] => none
    | [_, _, _] => none
    | _ => none

/-- A wall-clock time of day as produced by Luxon's `setZone` conversion
(hour 0-23, minute/second 0-59 for any valid Luxon DateTime). -/
structure LocalTime where
  hour : Nat
  minute : Nat
  second : Nat
deriving DecidableEq, Repr

/-- Seconds since local midnight, `src/unnamed/part_000` line 63. -/
def totalSecondsOf (lt : LocalTime) : JSRat :=
  ⟨lt.hour * 3600 + lt.minute * 60 + lt.second, 1⟩

/-- Core of `isWithinWorkingHours`, `src/unnamed/part_000` lines 48-76,
with the Luxon parse-and-convert chain factored out: `localT` is the local
wall-clock time the instant converts to in the restaurant timezone, or
`none` when the input string is falsy or fails both parse attempts (the
function then returns `false`, lines 49, 54-61). -/
def isWithinWorkingHours (localT : Option LocalTime) (openTime closeTime : String) : Bool :=
  match localT with
  | none => false
  | some lt =>
    let totalSeconds := totalSecondsOf lt
    match parseHHMMToSeconds openTime, parseHHMMToSeconds closeTime with
    | some openSeconds, some closeSeconds =>
      if openSeconds.ble closeSeconds then
        openSeconds.ble totalSeconds && totalSeconds.ble closeSeconds
      else
        openSeconds.ble totalSeconds || totalSeconds.ble closeSeconds
    | _, _ => false

example : parseHHMMToSeconds "10:00" = some ⟨36000, 1⟩ := by decide
example : parseHHMMToSeconds "10:" = some ⟨36000, 1⟩ := by decide
example : parseHHMMToSeconds "22:00:59" = some ⟨79259, 1⟩ := by decide
example : parseHHMMToSeconds "24:00" = none := by decide
example : parseHHMMToSeconds "banana" = none := by decide
example : parseHHMMToSeconds "" = none := by decide
example : jsNumber "0x0A".data = some ⟨10, 1⟩ := by decide
example : jsNumber "1e2".data = some ⟨100, 1⟩ := by decide
example : jsNumber " 10 ".data = some ⟨10, 1⟩ := by decide
example : jsNumber "4.5".data = some ⟨45, 10⟩ := by decide
example : isWithinWorkingHours (some ⟨21, 0, 0⟩) "20:00" "03:00" = true := by decide
example : isWithinWorkingHours (some ⟨10, 0, 0⟩) "20:00" "03:00" = false := by decide
example : isWithinWorkingHours (some ⟨2, 0, 0⟩) "20:00" "03:00" = true := by decide
example : isWithinWorkingHours (some ⟨9, 59, 59⟩) "10:00" "22:00" = false := by decide
example : isWithinWorkingHours (some ⟨10, 0, 0⟩) "10:00" "22:00" = true := by decide

/-- A regex line terminator, which `.` does not match in JS. -/
def isLineTerm (c : Char) : Bool :=
  c = '\n' || c = '\r' || c = ' ' || c = ' '

def isSignChar (c : Char) : Bool := c = '+' || c = '-'

/-- Anchored suffix `[+\-]\d{2}$` (reversed view of the characters). -/
def offsetTail2 : List Char → Bool
  | b :: a :: s :: _ => a.isDigit && b.isDigit && isSignChar s
  | _ => false

/-- Anchored suffix `[+\-]\d{2}\d{2}$` (reversed view). -/
def offsetTail4 : List Char → Bool
  | b :: a :: d2 :: d1 :: s :: _ =>
    d1.isDigit && d2.isDigit && a.isDigit && b.isDigit && isSignChar s
  | _ => false

/-- Anchored suffix `[+\-]\d{2}:\d{2}$` (reversed view). -/
def offsetTailColon : List Char → Bool
  | b :: a :: k :: d2 :: d1 :: s :: _ =>
    d1.isDigit && d2.isDigit && k = ':' && a.isDigit && b.isDigit && isSignChar s
  | _ => false

/-- The test `/[zZ]|[+\-]\d{2}(:?\d{2})?$/.test(dtStr)` of
`src/unnamed/part_000` line 27: a `z`/`Z` anywhere, or a trailing numeric
offset. -/
def hasOffsetMarker (cs : List Char) : Bool :=
  cs.any (fun c => c = 'z' || c = 'Z') ||
  (offsetTail2 cs.reverse || offsetTail4 cs.reverse || offsetTailColon cs.reverse)

/-- Match of `/^(.*T\d{2}:\d{2}:\d{2})(\d{2}:\d{2})$/` (line 32): the last
14 characters are `T`hh`:`mm`:`ss directly followed by dd`:`dd, and the
(`.*`) prefix contains no line terminator. -/
def gluedSecondsShape (cs : List Char) : Bool :=
  match cs.reverse with
  | j :: i :: k1 :: h :: g :: f :: e :: k2 :: d :: c :: k3 :: b :: a :: t :: rest =>
    t = 'T' && a.isDigit && b.isDigit && k3 = ':' && c.isDigit && d.isDigit && k2 = ':' &&
    e.isDigit && f.isDigit && g.isDigit && h.isDigit && k1 = ':' && i.isDigit && j.isDigit &&
    rest.all (fun ch => !isLineTerm ch)
  | _ => false

/-- Match of `/^(.*T\d{2}:\d{2})(\d{2}:\d{2})$/` (line 36): the last 11
characters are `T`hh`:`mm directly followed by dd`:`dd, and the prefix
contains no line terminator. -/
def gluedMinutesShape (cs : List Char) : Bool :=
  match cs.reverse with
  | h :: g :: k1 :: f :: e :: d :: c :: k2 :: b :: a :: t :: rest =>
    t = 'T' && a.isDigit && b.isDigit && k2 = ':' && c.isDigit && d.isDigit &&
    e.isDigit && f.isDigit && k1 = ':' && g.isDigit && h.isDigit &&
    rest.all (fun ch => !isLineTerm ch)
  | _ => false

/-- The replacement `` `${m[1]}+${m[2]}` `` of lines 33 and 37: insert a
`+` before the trailing glued dd`:`dd pair. -/
def insertPlusBeforeLast5 (cs : List Char) : List Char :=
  cs.take (cs.length - 5) ++ '+' :: cs.drop (cs.length - 5)

/-- `normalizeISO` of `src/unnamed/part_000` lines 23-40: leave falsy
strings and strings already carrying a `z`/`Z` or trailing numeric offset
unchanged; otherwise repair a glued offset (seconds shape first, then the
minutes-only shape); anything else passes through unchanged. -/
def normalizeISO (s : String) : String :=
  if s.data = [] then s
  else if hasOffsetMarker s.data then s
  else if gluedSecondsShape s.data then ⟨insertPlusBeforeLast5 s.data⟩
  else if gluedMinutesShape s.data then ⟨insertPlusBeforeLast5 s.data⟩
  else s

/-- The Luxon machinery that the controller helpers delegate to, as an
abstract environment.  `localOf cleaned tz` is the wall-clock time in zone
`tz` of the instant denoted by the (already normalized) string `cleaned`
under the two-stage parse of `src/unnamed/part_000` lines 53-61 (offset-
aware parse, else reinterpretation in the restaurant zone); `none` models
both parses failing.  `msOf cleaned tz` is the same instant as epoch
milliseconds, as produced by `parseIncomingToJSDate` via `toJSDate`. -/
structure TimeEnv where
  localOf : String → String → Option LocalTime
  msOf : String → String → Option Int

/-- `isWithinWorkingHours` applied to a raw incoming string,
`src/unnamed/part_000` lines 48-63: falsy check, `normalizeISO`, the Luxon
conversion (through the environment), then the pure core. -/
def isWithinWorkingHoursStr (env : TimeEnv) (dateTimeISO openTime closeTime tz : String) : Bool :=
  if dateTimeISO = "" then false
  else isWithinWorkingHours (env.localOf (normalizeISO dateTimeISO) tz) openTime closeTime

/-- `parseIncomingToJSDate` of `src/unnamed/part_000` lines 82-93: falsy
check, `normalizeISO`, Luxon parse (through the environment), epoch
milliseconds of the resulting JS `Date`. -/
def parseIncomingToJSDate (env : TimeEnv) (dateTimeISO tz : String) : Option Int :=
  if dateTimeISO = "" then none
  else env.msOf (normalizeISO dateTimeISO) tz

/-- Modelled from the spec: a clock-of-day string in the literal `HH:MM` or
`HH:MM:SS` format (two digits per component, hours 0-23, minutes/seconds
0-59), giving its seconds since midnight.  This is the specification-side
notion of "parseable as HH:MM or HH:MM:SS" against which the lax code
parser is compared. -/
def specParseHHMM (s : String) : Option Nat :=
  match s.data with
  | [h1, h2, ':', m1, m2] =>
    if h1.isDigit && h2.isDigit && m1.isDigit && m2.isDigit then
      let hh := digitsVal [h1, h2]
      let mm := digitsVal [m1, m2]
      if hh ≤ 23 ∧ mm ≤ 59 then some (hh * 3600 + mm * 60) else none
    else none
  | [h1, h2, ':', m1, m2, ':', s1, s2] =>
    if h1.isDigit && h2.isDigit && m1.isDigit && m2.isDigit && s1.isDigit && s2.isDigit then
      let hh := digitsVal [h1, h2]
      let mm := digitsVal [m1, m2]
      let ss := digitsVal [s1, s2]
      if hh ≤ 23 ∧ mm ≤ 59 ∧ ss ≤ 59 then some (hh * 3600 + mm * 60 + ss) else none
    else none
  | _ => none

/-- Modelled from the spec: a timestamp that "already carries a UTC marker
or an explicit trailing numeric offset" — a trailing `Z`/`z`, or a
trailing `±hh`, `±hhmm` or `±hh:mm`. -/
def carriesUTCorOffset (cs : List Char) : Bool :=
  (match cs.reverse with
   | c :: _ => c = 'z' || c = 'Z'
   | [] => false) ||
  (offsetTail2 cs.reverse || offsetTail4 cs.reverse || offsetTailColon cs.reverse)

example : normalizeISO "2025-11-02T15:00:0007:00" = "2025-11-02T15:00:00+07:00" := by decide
example : normalizeISO "2025-11-02T15:0007:00" = "2025-11-02T15:00+07:00" := by decide
example : normalizeISO "2025-11-02T15:00:00+07:00" = "2025-11-02T15:00:00+07:00" := by decide
example : normalizeISO "2025-11-02T15:00:00Z" = "2025-11-02T15:00:00Z" := by decide
example : normalizeISO "2025-11-02T15:00:00" = "2025-11-02T15:00:00" := by decide
example : specParseHHMM "10:00" = some 36000 := by decide
example : specParseHHMM "10:" = none := by decide
example : specParseHHMM "25:00" = none := by decide

/-- The authenticated caller: `req.user.id` and `req.user.role`. -/
structure Actor where
  id : String
  role : String
deriving DecidableEq, Repr

/-- A stored reservation document (`src/backend/models/Reservation.js`):
the scheduled instant is kept as epoch milliseconds of a valid JS `Date`
(the schema requires a cast-checked `Date`, so the stored value is never
`Invalid Date` and the controller's `isNaN` re-checks cannot fire). -/
structure Reservation where
  rid : String
  user : String
  restaurant : String
  dateTimeMs : Int
  status : String
deriving DecidableEq, Repr

/-- The slice of a restaurant document the reservation controller reads. -/
structure Restaurant where
  rid : String
  openTime : String
  closeTime : String
  timezone : Option String
deriving DecidableEq, Repr

/-- JS `a || b` for an optional string field (`restaurant.timezone ||
'Asia/Bangkok'`): a missing or empty string falls back to the default. -/
def jsOrDefault (o : Option String) (d : String) : String :=
  match o with
  | none => d
  | some t => if t = "" then d else t

/-- The observable outcome of a reservation controller action (success
payload or which rejection was sent). -/
inductive RsvOutcome where
  | created (r : Reservation)
  | updated (r : Reservation)
  | errUserRequired
  | errNotAuthorized
  | errRestaurantNotFound
  | errDateTimeRequired
  | errOutsideHours (openTime closeTime : String)
  | errQuota (userId : String)
  | errInvalidDateTime
  | errReservationNotFound
  | errInvalidStatus
  | errCompletedTooEarly
deriving DecidableEq, Repr

/-- `addReservation` of `src/unnamed/part_000` lines 158-210: required
`user`, ownership authorization, restaurant lookup, required `dateTime`,
working-hours gate, the 3-reservation quota (no status filter on the
count), date conversion, then creation with status `booked`. -/
def addReservation (env : TimeEnv) (actor : Actor) (restaurantId : String)
    (bodyUser bodyDateTime : Option String)
    (restaurants : List Restaurant) (reservations : List Reservation)
    (newId : String) : RsvOutcome × List Reservation :=
  match bodyUser with
  | none => (.errUserRequired, reservations)
  | some u =>
    if u = "" then (.errUserRequired, reservations)
    else if actor.role ≠ "admin" ∧ u ≠ actor.id then (.errNotAuthorized, reservations)
    else
      match restaurants.find? (fun rt => rt.rid == restaurantId) with
      | none => (.errRestaurantNotFound, reservations)
      | some rest =>
        match bodyDateTime with
        | none => (.errDateTimeRequired, reservations)
        | some raw =>
          if raw = "" then (.errDateTimeRequired, reservations)
          else
            let tz := jsOrDefault rest.timezone "Asia/Bangkok"
            if isWithinWorkingHoursStr env raw rest.openTime rest.closeTime tz = false then
              (.errOutsideHours rest.openTime rest.closeTime, reservations)
            else
              let existed := reservations.filter (fun r => r.user == u)
              if 3 ≤ existed.length ∧ actor.role ≠ "admin" then
                (.errQuota u, reservations)
              else
                match parseIncomingToJSDate env raw tz with
                | none => (.errInvalidDateTime, reservations)
                | some ms =>
                  let newRes : Reservation := ⟨newId, u, restaurantId, ms, "booked"⟩
                  (.created newRes, reservations ++ [newRes])

/-- The update request body (`req.body`) of `updateReservation`; `none`
means the field is absent. -/
structure UpdateBody where
  user : Option String := none
  dateTime : Option String := none
  status : Option String := none
  restaurant : Option String := none
deriving DecidableEq, Repr

/-- The `findByIdAndUpdate(req.params.id, req.body)` write: fields present
in the body overwrite the stored document; the `dateTime` field was
already converted to a `Date` (`convertedMs`) before the write.  (An
empty-string `dateTime`, which would fail the Mongoose `Date` cast in the
source, is not modelled and leaves the stored instant unchanged.) -/
def mergeBody (res : Reservation) (body : UpdateBody) (convertedMs : Option Int) : Reservation :=
  { res with
    user := body.user.getD res.user
    dateTimeMs := convertedMs.getD res.dateTimeMs
    status := body.status.getD res.status
    restaurant := body.restaurant.getD res.restaurant }

def replaceById (db : List Reservation) (rid : String) (r : Reservation) : List Reservation :=
  db.map (fun x => if x.rid == rid then r else x)

/-- The status-transition block of `updateReservation`
(`src/unnamed/part_000` lines 251-274) followed by the
`findByIdAndUpdate` write (line 276): a truthy requested status must be
one of `booked`/`completed`/`cancelled`, and a non-admin requesting
`completed` is gated on `now` having reached the target instant — the
freshly converted body `dateTime` when one was supplied, the stored one
otherwise. -/
def updStatusPhase (actor : Actor) (reservationId : String) (res : Reservation)
    (body : UpdateBody) (convertedMs : Option Int) (now : Int)
    (reservations : List Reservation) : RsvOutcome × List Reservation :=
  let merged := mergeBody res body convertedMs
  let finish := (RsvOutcome.updated merged, replaceById reservations reservationId merged)
  match body.status with
  | none => finish
  | some st =>
    if st = "" then finish
    else if ¬ (st = "booked" ∨ st = "completed" ∨ st = "cancelled") then
      (.errInvalidStatus, reservations)
    else if st = "completed" ∧ actor.role ≠ "admin" then
      let targetMs := convertedMs.getD res.dateTimeMs
      if now < targetMs then (.errCompletedTooEarly, reservations) else finish
    else finish

/-- `updateReservation` of `src/unnamed/part_000` lines 216-283: lookup,
ownership authorization, then — when a truthy `dateTime` is supplied —
working-hours validation against the restaurant referenced by the STORED
reservation, date conversion, and finally the status block and the write.
`now` is the single per-request `Date.now()` sample of line 269. -/
def updateReservation (env : TimeEnv) (actor : Actor) (reservationId : String)
    (body : UpdateBody) (restaurants : List Restaurant)
    (reservations : List Reservation) (now : Int) : RsvOutcome × List Reservation :=
  match reservations.find? (fun r => r.rid == reservationId) with
  | none => (.errReservationNotFound, reservations)
  | some res =>
    if res.user ≠ actor.id ∧ actor.role ≠ "admin" then (.errNotAuthorized, reservations)
    else
      match body.dateTime with
      | some raw =>
        if raw = "" then updStatusPhase actor reservationId res body none now reservations
        else
          match restaurants.find? (fun rt => rt.rid == res.restaurant) with
          | none => (.errRestaurantNotFound, reservations)
          | some rest =>
            let tz := jsOrDefault rest.timezone "Asia/Bangkok"
            if isWithinWorkingHoursStr env raw rest.openTime rest.closeTime tz = false then
              (.errOutsideHours rest.openTime rest.closeTime, reservations)
            else
              match parseIncomingToJSDate env raw tz with
              | none => (.errInvalidDateTime, reservations)
              | some ms => updStatusPhase actor reservationId res body (some ms) now reservations
      | none => updStatusPhase actor reservationId res body none now reservations

/-- `markCompleted` of `src/unnamed/part_000` lines 308-335: lookup,
ownership authorization, then the same completion time gate — a non-admin
may not complete before the stored instant; `now` is the single
`Date.now()` sample of line 322. -/
def markCompleted (actor : Actor) (reservationId : String) (now : Int)
    (reservations : List Reservation) : RsvOutcome × List Reservation :=
  match reservations.find? (fun r => r.rid == reservationId) with
  | none => (.errReservationNotFound, reservations)
  | some res =>
    if res.user ≠ actor.id ∧ actor.role ≠ "admin" then (.errNotAuthorized, reservations)
    else if now < res.dateTimeMs ∧ actor.role ≠ "admin" then
      (.errCompletedTooEarly, reservations)
    else
      let done := { res with status := "completed" }
      (.updated done, replaceById reservations reservationId done)

/-- A stored review document (`src/backend/models/Review.js`).  `stars` is
a finite JS number (the present-but-non-numeric corner, which the schema
and the controller both reject, is not representable). -/
structure Review where
  user : String
  restaurant : String
  stars : JSRat
  message : Option String
deriving DecidableEq, Repr

/-- The observable outcome of `createReview`. -/
inductive ReviewOutcome where
  | created (rv : Review)
  | errNotAuthenticated
  | errRestaurantRequired
  | errStarsRequired
  | errStarsRange
  | errRestaurantNotFound
  | errNoCompletedReservation
deriving DecidableEq, Repr

/-- `createReview` of the reviews controller
(`src/backend/controllers/reservations.js` lines 312-372): checks run in
the order authentication, required `restaurant`, required `stars`, stars
range 0-5, restaurant existence, existence of a reservation by this user
at this restaurant with status exactly `completed`; then the review is
created.  The existing review set is never consulted by any check. -/
def createReview (reqUser : Option String) (bodyRestaurant : Option String)
    (bodyStars : Option JSRat) (bodyMessage : Option String)
    (restaurants : List Restaurant) (reservations : List Reservation)
    (reviews : List Review) : ReviewOutcome × List Review :=
  match reqUser with
  | none => (.errNotAuthenticated, reviews)
  | some userId =>
    if userId = "" then (.errNotAuthenticated, reviews)
    else
      match bodyRestaurant with
      | none => (.errRestaurantRequired, reviews)
      | some restaurantRef =>
        if restaurantRef = "" then (.errRestaurantRequired, reviews)
        else
          match bodyStars with
          | none => (.errStarsRequired, reviews)
          | some starsNum =>
            if starsNum.blt 0 || JSRat.blt 5 starsNum then (.errStarsRange, reviews)
            else
              match restaurants.find? (fun rt => rt.rid == restaurantRef) with
              | none => (.errRestaurantNotFound, reviews)
              | some _ =>
                match reservations.find? (fun r =>
                    r.user == userId && r.restaurant == restaurantRef &&
                    r.status == "completed") with
                | none => (.errNoCompletedReservation, reviews)
                | some _ =>
                  let rv : Review := ⟨userId, restaurantRef, starsNum, bodyMessage⟩
                  (.created rv, reviews ++ [rv])

def listSumJS (l : List JSRat) : JSRat := l.foldl JSRat.add 0

/-- The `$match`/`$group` aggregation of `updateRestaurantRating`
(`src/backend/models/Review.js` lines 33-42): empty when the restaurant
has no reviews, otherwise the singleton `avgRating`/`count` group. -/
def reviewStats (reviews : List Review) (restaurantId : String) : List (JSRat × Nat) :=
  let matched := reviews.filter (fun rv => rv.restaurant == restaurantId)
  if matched.isEmpty then []
  else [((listSumJS (matched.map Review.stars)).divNat matched.length, matched.length)]

/-- `parseFloat(x.toFixed(2))` on an exact fraction: round to the nearest
multiple of 1/100, half away from zero upward (the larger candidate on a
tie, per the `toFixed` specification; the value is produced exactly,
whereas a JS double may round a value such as 4.005 down first — all
inputs considered here are exact in a double). -/
def jsToFixed2 (q : JSRat) : JSRat :=
  ⟨Int.fdiv (q.num * 200 + (q.den : Int)) (2 * (q.den : Int)), 100⟩

/-- `updateRestaurantRating` of `src/backend/models/Review.js` lines
28-54: the recomputed `averageRating`/`reviewCount` pair written onto the
restaurant — the rounded mean and the count when reviews exist, exactly
`(0, 0)` otherwise; `none` models the early return on a falsy id. -/
def updateRestaurantRating (reviews : List Review) (restaurantId : String) :
    Option (JSRat × Nat) :=
  if restaurantId = "" then none
  else
    match reviewStats reviews restaurantId with
    | [] => some (0, 0)
    | st :: _ => some (jsToFixed2 st.1, st.2)

theorem radixVal_den_pos {base : ℕ} {isD : Char → Bool} {val : Char → ℕ}
    {ds : List Char} {q : JSRat} (h : radixVal base isD val ds = some q) : 0 < q.den := by
  unfold radixVal at h
  split at h
  · cases h
  · split at h
    · rw [Option.some.injEq] at h; subst h; exact Nat.one_pos
    · cases h

theorem applyExpDigits_den_pos {v : JSRat} {b : Bool} {ds : List Char} {q : JSRat}
    (hv : 0 < v.den) (h : applyExpDigits v b ds = some q) : 0 < q.den := by
  unfold applyExpDigits at h
  split at h
  · cases h
  · split at h
    · rw [Option.some.injEq] at h; subst h
      cases b
      · simpa using hv
      · simpa using Nat.mul_pos hv (pow_pos (show (0 : ℕ) < 10 by norm_num) (digitsVal ds))
    · cases h

theorem applyExpPart_den_pos {v : JSRat} {cs : List Char} {q : JSRat}
    (hv : 0 < v.den) (h : applyExpPart v cs = some q) : 0 < q.den := by
  cases cs with
  | nil =>
    simp only [applyExpPart, Option.some.injEq] at h
    subst h; exact hv
  | cons e rest =>
    simp only [applyExpPart] at h
    split at h
    · split at h
      · split at h
        · exact applyExpDigits_den_pos hv h
        · split at h
          · exact applyExpDigits_den_pos hv h
          · exact applyExpDigits_den_pos hv h
      · cases h
    · cases h

theorem parseUnsignedDec_den_pos {cs : List Char} {q : JSRat}
    (h : parseUnsignedDec cs = some q) : 0 < q.den := by
  simp only [parseUnsignedDec] at h
  split at h
  · split at h
    · split at h
      · cases h
      · exact applyExpPart_den_pos (pow_pos (by norm_num) _) h
    · split at h
      · cases h
      · exact applyExpPart_den_pos Nat.one_pos h
  · split at h
    · cases h
    · rw [Option.some.injEq] at h; subst h; exact Nat.one_pos

theorem parseSignedBody_den_pos {cs : List Char} {q : JSRat}
    (h : parseSignedBody cs = some q) : 0 < q.den := by
  unfold parseSignedBody at h
  split at h
  · cases h
  · exact parseUnsignedDec_den_pos h

theorem jsNumber_den_pos {cs : List Char} {q : JSRat} (h : jsNumber cs = some q) : 0 < q.den := by
  simp only [jsNumber] at h
  split at h
  · rw [Option.some.injEq] at h; subst h; exact Nat.one_pos
  · split at h
    · split at h
      · split at h
        · exact radixVal_den_pos h
        · split at h
          · exact radixVal_den_pos h
          · split at h
            · exact radixVal_den_pos h
            · exact parseUnsignedDec_den_pos h
      · exact parseUnsignedDec_den_pos h
    · split at h
      · exact parseSignedBody_den_pos h
      · split at h
        · rcases Option.map_eq_some'.1 h with ⟨p, hp, hq⟩
          subst hq
          simpa [JSRat.neg] using parseSignedBody_den_pos hp
        · exact parseSignedBody_den_pos h

theorem hmsToSeconds_den_pos {hh mm ss q : JSRat} (h1 : 0 < hh.den) (h2 : 0 < mm.den)
    (h3 : 0 < ss.den) (h : hmsToSeconds hh mm ss = some q) : 0 < q.den := by
  unfold hmsToSeconds at h
  split at h
  · cases h
  · rw [Option.some.injEq] at h; subst h
    simpa [JSRat.add, JSRat.mulNat] using Nat.mul_pos (Nat.mul_pos h1 h2) h3

theorem parseHHMMToSeconds_den_pos {s : String} {q : JSRat}
    (h : parseHHMMToSeconds s = some q) : 0 < q.den := by
  have hmem : ∀ x ∈ (splitOnColon s.data).map jsNumber, ∀ p : JSRat, x = some p → 0 < p.den := by
    intro x hx p hxp
    rcases List.mem_map.1 hx with ⟨cs, _, rfl⟩
    exact jsNumber_den_pos hxp
  simp only [parseHHMMToSeconds] at h
  split at h
  · cases h
  · split at h
    · rename_i hh mm heq
      have hhp : 0 < hh.den := hmem _ (by rw [heq]; exact List.mem_cons_self _ _) hh rfl
      have hmp : 0 < mm.den := hmem _ (by rw [heq]; exact List.mem_cons_of_mem _ (List.mem_cons_self _ _)) mm rfl
      exact hmsToSeconds_den_pos hhp hmp Nat.one_pos h
    · rename_i hh mm ss heq
      have hhp : 0 < hh.den := hmem _ (by rw [heq]; exact List.mem_cons_self _ _) hh rfl
      have hmp : 0 < mm.den := hmem _ (by rw [heq]; exact List.mem_cons_of_mem _ (List.mem_cons_self _ _)) mm rfl
      have hsp : 0 < ss.den := hmem _ (by rw [heq]; exact List.mem_cons_of_mem _ (List.mem_cons_of_mem _ (List.mem_cons_self _ _))) ss rfl
      exact hmsToSeconds_den_pos hhp hmp hsp h
    · cases h
    · cases h
    · cases h

theorem JSRat.ble_eq_decide {a b : JSRat} (ha : 0 < a.den) (hb : 0 < b.den) :
    a.ble b = decide (a.toRat ≤ b.toRat) := by
  by_cases h : a.toRat ≤ b.toRat
  · rw [(JSRat.ble_iff_toRat ha hb).2 h, decide_eq_true h]
  · rw [decide_eq_false h]
    cases hble : a.ble b
    · rfl
    · exact absurd ((JSRat.ble_iff_toRat ha hb).1 hble) h

/-- The seconds-since-midnight a local wall-clock time denotes, as a
rational number (the value of `totalSecondsOf`). -/
def localSeconds (lt : LocalTime) : ℚ :=
  ((lt.hour * 3600 + lt.minute * 60 + lt.second : ℕ) : ℚ)

theorem totalSecondsOf_toRat (lt : LocalTime) :
    (totalSecondsOf lt).toRat = localSeconds lt := by
  simp [totalSecondsOf, JSRat.toRat, localSeconds]

theorem totalSecondsOf_den_pos (lt : LocalTime) : 0 < (totalSecondsOf lt).den :=
  Nat.one_pos

/-- A fixed Luxon environment: every string denotes the same instant,
whose local wall-clock time is `lt` and whose epoch value is `ms`. -/
def envFix (lt : LocalTime) (ms : Int) : TimeEnv :=
  ⟨fun _ _ => some lt, fun _ _ => some ms⟩

/-- Claim C1: for every instant whose conversion to local wall-clock time
in the restaurant timezone yields the time `lt` (hence `localSeconds lt`
seconds since midnight) and every open/close pair the code parser accepts,
`isWithinWorkingHours` decides membership of the window: inclusively
between open and close in the same-day branch (`open ≤ close`), and on or
after open or on or before close in the overnight branch; a time exactly
at open or exactly at close is accepted in both branches, and in the
same-day branch one second before open and one second after close are
rejected. -/
theorem c1_working_hours_window
    (env : TimeEnv) (raw tz openS closeS : String) (lt : LocalTime)
    (hraw : ¬ raw = "")
    (hlocal : env.localOf (normalizeISO raw) tz = some lt)
    (o c : JSRat)
    (ho : parseHHMMToSeconds openS = some o) (hc : parseHHMMToSeconds closeS = some c) :
    (isWithinWorkingHoursStr env raw openS closeS tz =
      if o.toRat ≤ c.toRat then
        decide (o.toRat ≤ localSeconds lt ∧ localSeconds lt ≤ c.toRat)
      else
        decide (o.toRat ≤ localSeconds lt ∨ localSeconds lt ≤ c.toRat))
    ∧ (localSeconds lt = o.toRat → isWithinWorkingHoursStr env raw openS closeS tz = true)
    ∧ (localSeconds lt = c.toRat → isWithinWorkingHoursStr env raw openS closeS tz = true)
    ∧ (o.toRat ≤ c.toRat → localSeconds lt = o.toRat - 1 →
        isWithinWorkingHoursStr env raw openS closeS tz = false)
    ∧ (o.toRat ≤ c.toRat → localSeconds lt = c.toRat + 1 →
        isWithinWorkingHoursStr env raw openS closeS tz = false) := by
  have hoD : 0 < o.den := parseHHMMToSeconds_den_pos ho
  have hcD : 0 < c.den := parseHHMMToSeconds_den_pos hc
  have htD : 0 < (totalSecondsOf lt).den := totalSecondsOf_den_pos lt
  have hmain : isWithinWorkingHoursStr env raw openS closeS tz =
      if o.toRat ≤ c.toRat then
        decide (o.toRat ≤ localSeconds lt ∧ localSeconds lt ≤ c.toRat)
      else
        decide (o.toRat ≤ localSeconds lt ∨ localSeconds lt ≤ c.toRat) := by
    rw [isWithinWorkingHoursStr, if_neg hraw, hlocal]
    simp only [isWithinWorkingHours]
    split
    · rename_i os cs2 hos hcs
      rw [ho] at hos
      rw [hc] at hcs
      rw [Option.some.injEq] at hos hcs
      subst hos
      subst hcs
      rw [JSRat.ble_eq_decide hoD hcD, JSRat.ble_eq_decide hoD htD,
          JSRat.ble_eq_decide htD hcD, totalSecondsOf_toRat]
      by_cases hoc : o.toRat ≤ c.toRat <;> simp [hoc]
    · rename_i hnone
      exact absurd (hnone o c ho hc) not_false
  refine ⟨hmain, ?_, ?_, ?_, ?_⟩
  · intro hS
    rw [hmain, hS]
    by_cases hoc : o.toRat ≤ c.toRat <;> simp [hoc]
  · intro hS
    rw [hmain, hS]
    by_cases hoc : o.toRat ≤ c.toRat <;> simp [hoc]
  · intro hoc hS
    rw [hmain, hS, if_pos hoc]
    simp only [decide_eq_false_iff_not]
    intro hcontra
    linarith [hcontra.1]
  · intro hoc hS
    rw [hmain, hS, if_pos hoc]
    simp only [decide_eq_false_iff_not]
    intro hcontra
    linarith [hcontra.2]

theorem c1_working_hours_window_witness :
    (¬ "2025-11-02T10:00:00+07:00" = "") ∧
    parseHHMMToSeconds "10:00" = some ⟨36000, 1⟩ ∧
    parseHHMMToSeconds "22:00" = some ⟨79200, 1⟩ ∧
    isWithinWorkingHoursStr (envFix ⟨10, 0, 0⟩ 0) "2025-11-02T10:00:00+07:00"
      "10:00" "22:00" "Asia/Bangkok" = true :=
  ⟨by decide, by decide, by decide,
    (c1_working_hours_window (envFix ⟨10, 0, 0⟩ 0) "2025-11-02T10:00:00+07:00"
      "Asia/Bangkok" "10:00" "22:00" ⟨10, 0, 0⟩ (by decide) rfl
      ⟨36000, 1⟩ ⟨79200, 1⟩ (by decide) (by decide)).2.1
      (by norm_num [localSeconds, JSRat.toRat])⟩

/-- Claim C2 (counterexample): the string `"10:"` is not parseable as
`HH:MM` or `HH:MM:SS` (the strict format of the claim, `specParseHHMM`),
yet the code parser coerces its empty second component to 0 via `Number`
and `isWithinWorkingHours` accepts a 10:00:00 local instant against the
window `"10:" - "22:00"` instead of returning false for every instant. -/
theorem c2_counterexample :
    specParseHHMM "10:" = none ∧
    isWithinWorkingHoursStr (envFix ⟨10, 0, 0⟩ 0) "2025-11-02T10:00:00+07:00"
      "10:" "22:00" "Asia/Bangkok" = true := by
  constructor
  · decide
  · decide

/-- Claim C2 (amended): for every open/close string pair where either
member is rejected by the code parser `parseHHMMToSeconds` (fewer than 2
or more than 3 colon-separated parts, a part `Number`-coerces to a
non-finite value, or a component is out of range — hour above 23, minute
or second above 59, or any negative component), `isWithinWorkingHours`
returns false for every instant and never treats the restaurant as open;
it is a total function, so it never throws.  (The code parser is laxer
than the literal `HH:MM`/`HH:MM:SS` format: strings such as `"10:"`,
which strict parsing rejects, coerce to a valid clock value and can be
accepted — see the counterexample.) -/
theorem c2_unparsable_hours_rejected (openS closeS : String)
    (h : parseHHMMToSeconds openS = none ∨ parseHHMMToSeconds closeS = none)
    (env : TimeEnv) (raw tz : String) :
    isWithinWorkingHoursStr env raw openS closeS tz = false := by
  rw [isWithinWorkingHoursStr]
  by_cases hraw : raw = ""
  · rw [if_pos hraw]
  · rw [if_neg hraw]
    cases hl : env.localOf (normalizeISO raw) tz with
    | none => rfl
    | some lt =>
      simp only [isWithinWorkingHours]
      cases hA : parseHHMMToSeconds openS with
      | none => rfl
      | some o2 =>
        cases hB : parseHHMMToSeconds closeS with
        | none => rfl
        | some c2 =>
          rcases h with h | h
          · rw [hA] at h; cases h
          · rw [hB] at h; cases h

theorem c2_unparsable_hours_rejected_witness :
    (parseHHMMToSeconds "banana" = none ∨ parseHHMMToSeconds "22:00" = none) ∧
    isWithinWorkingHoursStr (envFix ⟨10, 0, 0⟩ 0) "2025-11-02T10:00:00+07:00"
      "banana" "22:00" "Asia/Bangkok" = false :=
  ⟨Or.inl (by decide),
    c2_unparsable_hours_rejected "banana" "22:00" (Or.inl (by decide))
      (envFix ⟨10, 0, 0⟩ 0) "2025-11-02T10:00:00+07:00" "Asia/Bangkok"⟩

/-- Claim C8: normalization is a round trip — a timestamp already carrying
a UTC marker or an explicit trailing numeric offset is returned as the
identical string (hence the identical instant); a glued-offset malformed
string of the with-seconds shape, and one of the minutes-only shape not
also matching the seconds shape, are returned as exactly the manually
corrected string with a `+` inserted before the trailing two-digit pair,
hence parse to the same instant as that corrected string.  (The marker
pass-through is tested first in the code, so the repair conjuncts carry
the no-marker hypothesis; a glued-shape string containing a stray
`z`/`Z` is returned unchanged, and then both it and its corrected form
fail ISO parsing, denoting no instant at all.) -/
theorem c8_normalize_round_trip (s : String) :
    (carriesUTCorOffset s.data = true → normalizeISO s = s)
    ∧ (hasOffsetMarker s.data = false → gluedSecondsShape s.data = true →
        normalizeISO s = ⟨insertPlusBeforeLast5 s.data⟩)
    ∧ (hasOffsetMarker s.data = false → gluedSecondsShape s.data = false →
        gluedMinutesShape s.data = true →
        normalizeISO s = ⟨insertPlusBeforeLast5 s.data⟩) := by
  refine ⟨?_, ?_, ?_⟩
  · intro hcar
    have hmar2 : hasOffsetMarker s.data = true := by
      unfold carriesUTCorOffset at hcar
      unfold hasOffsetMarker
      rcases Bool.or_eq_true_iff.1 hcar with hz | hoff
      · cases hrev : s.data.reverse with
        | nil => rw [hrev] at hz; cases hz
        | cons cfst ctail =>
          rw [hrev] at hz
          have hmem : cfst ∈ s.data := by
            have h2 : cfst ∈ s.data.reverse := by
              rw [hrev]; exact List.mem_cons_self _ _
            exact List.mem_reverse.1 h2
          have hany : s.data.any (fun ch => ch = 'z' || ch = 'Z') = true :=
            List.any_eq_true.2 ⟨cfst, hmem, by simpa using hz⟩
          rw [hany, Bool.true_or]
      · rw [hoff, Bool.or_true]
    unfold normalizeISO
    by_cases hnil : s.data = []
    · rw [if_pos hnil]
    · rw [if_neg hnil, if_pos hmar2]
  · intro hmar hsec
    unfold normalizeISO
    have hnil : ¬ s.data = [] := by
      intro h0
      rw [h0] at hsec
      exact absurd hsec (by decide)
    rw [if_neg hnil, if_neg (by simp [hmar]), if_pos hsec]
  · intro hmar hsec hmin
    unfold normalizeISO
    have hnil : ¬ s.data = [] := by
      intro h0
      rw [h0] at hmin
      exact absurd hmin (by decide)
    rw [if_neg hnil, if_neg (by simp [hmar]), if_neg (by simp [hsec]), if_pos hmin]

theorem c8_normalize_round_trip_witness :
    carriesUTCorOffset "2025-11-02T15:00:00+07:00".data = true ∧
    normalizeISO "2025-11-02T15:00:00+07:00" = "2025-11-02T15:00:00+07:00" ∧
    normalizeISO "2025-11-02T15:00:0007:00" = ⟨insertPlusBeforeLast5 "2025-11-02T15:00:0007:00".data⟩ ∧
    normalizeISO "2025-11-02T15:0007:00" = ⟨insertPlusBeforeLast5 "2025-11-02T15:0007:00".data⟩ :=
  ⟨by decide,
    (c8_normalize_round_trip "2025-11-02T15:00:00+07:00").1 (by decide),
    (c8_normalize_round_trip "2025-11-02T15:00:0007:00").2.1 (by decide) (by decide),
    (c8_normalize_round_trip "2025-11-02T15:0007:00").2.2 (by decide) (by decide) (by decide)⟩

/-- Claim C3: in both `updateReservation` and `markCompleted`, an admin
actor is never blocked by the completion time gate; a non-admin owner
requesting status `completed` is rejected by the gate exactly when the
single per-request `now` sample is strictly earlier than the target
instant — the freshly supplied `dateTime` when the same request changes
it, the stored one otherwise. -/
theorem c3_completed_gate :
    (∀ (env : TimeEnv) (actor : Actor) (reservationId : String) (body : UpdateBody)
        (restaurants : List Restaurant) (reservations : List Reservation) (now : Int),
      actor.role = "admin" →
      (updateReservation env actor reservationId body restaurants reservations now).1
        ≠ RsvOutcome.errCompletedTooEarly)
    ∧ (∀ (actor : Actor) (reservationId : String) (now : Int) (reservations : List Reservation),
      actor.role = "admin" →
      (markCompleted actor reservationId now reservations).1 ≠ RsvOutcome.errCompletedTooEarly)
    ∧ (∀ (env : TimeEnv) (actor : Actor) (reservationId : String) (bu br : Option String)
        (restaurants : List Restaurant) (reservations : List Reservation) (now : Int)
        (res : Reservation),
      ¬ actor.role = "admin" →
      reservations.find? (fun r => r.rid == reservationId) = some res →
      res.user = actor.id →
      ((updateReservation env actor reservationId ⟨bu, none, some "completed", br⟩
          restaurants reservations now).1 = RsvOutcome.errCompletedTooEarly
        ↔ now < res.dateTimeMs))
    ∧ (∀ (env : TimeEnv) (actor : Actor) (reservationId : String) (bu br : Option String)
        (raw : String) (restaurants : List Restaurant) (reservations : List Reservation)
        (now : Int) (res : Reservation) (rest : Restaurant) (ms : Int),
      ¬ actor.role = "admin" →
      reservations.find? (fun r => r.rid == reservationId) = some res →
      res.user = actor.id →
      ¬ raw = "" →
      restaurants.find? (fun rt => rt.rid == res.restaurant) = some rest →
      isWithinWorkingHoursStr env raw rest.openTime rest.closeTime
        (jsOrDefault rest.timezone "Asia/Bangkok") = true →
      parseIncomingToJSDate env raw (jsOrDefault rest.timezone "Asia/Bangkok") = some ms →
      ((updateReservation env actor reservationId ⟨bu, some raw, some "completed", br⟩
          restaurants reservations now).1 = RsvOutcome.errCompletedTooEarly
        ↔ now < ms))
    ∧ (∀ (actor : Actor) (reservationId : String) (now : Int)
        (reservations : List Reservation) (res : Reservation),
      ¬ actor.role = "admin" →
      reservations.find? (fun r => r.rid == reservationId) = some res →
      res.user = actor.id →
      ((markCompleted actor reservationId now reservations).1
        = RsvOutcome.errCompletedTooEarly ↔ now < res.dateTimeMs)) := by
  refine ⟨?_, ?_, ?_, ?_, ?_⟩
  · intro env actor reservationId body restaurants reservations now hrole
    simp only [updateReservation, updStatusPhase]
    repeat' split
    all_goals simp_all
  · intro actor reservationId now reservations hrole
    simp only [markCompleted]
    repeat' split
    all_goals simp_all
  · intro env actor reservationId bu br restaurants reservations now res hrole hfind hown
    simp only [updateReservation, updStatusPhase, hfind, Option.getD_none]
    repeat' split
    all_goals simp_all
  · intro env actor reservationId bu br raw restaurants reservations now res rest ms
      hrole hfind hown hraw hfindR hhours hparse
    simp only [updateReservation, updStatusPhase, hfind, hfindR, hparse, Option.getD_some]
    repeat' split
    all_goals simp_all
  · intro actor reservationId now reservations res hrole hfind hown
    simp only [markCompleted, hfind]
    rw [if_neg (fun hcontra => hcontra.1 hown)]
    by_cases hlt : now < res.dateTimeMs
    · rw [if_pos ⟨hlt, hrole⟩]
      simp [hlt]
    · rw [if_neg (fun hcontra => hlt hcontra.1)]
      simp [hlt]

theorem c3_completed_gate_witness :
    (markCompleted ⟨"u1", "user"⟩ "res1" 50 [⟨"res1", "u1", "r1", 100, "booked"⟩]).1
      = RsvOutcome.errCompletedTooEarly ∧
    (markCompleted ⟨"u1", "user"⟩ "res1" 100 [⟨"res1", "u1", "r1", 100, "booked"⟩]).1
      ≠ RsvOutcome.errCompletedTooEarly :=
  ⟨(c3_completed_gate.2.2.2.2 ⟨"u1", "user"⟩ "res1" 50 [⟨"res1", "u1", "r1", 100, "booked"⟩]
      ⟨"res1", "u1", "r1", 100, "booked"⟩ (by decide) (by decide) rfl).2 (by decide),
   fun hgate =>
    absurd ((c3_completed_gate.2.2.2.2 ⟨"u1", "user"⟩ "res1" 100 [⟨"res1", "u1", "r1", 100, "booked"⟩]
      ⟨"res1", "u1", "r1", 100, "booked"⟩ (by decide) (by decide) rfl).1 hgate) (by decide)⟩

/-- Claim C4: a non-admin creating a reservation for an owner who already
holds 3 or more reservations never gets a created reservation back, and a
create performed by an admin actor is never rejected by the quota,
whatever the owner's count. -/
theorem c4_reservation_quota
    (env : TimeEnv) (actor : Actor) (restaurantId : String)
    (bodyUser bodyDateTime : Option String)
    (restaurants : List Restaurant) (reservations : List Reservation) (newId : String) :
    ((¬ actor.role = "admin") → ∀ u, bodyUser = some u →
      3 ≤ (reservations.filter (fun r => r.user == u)).length →
      ∀ r, (addReservation env actor restaurantId bodyUser bodyDateTime
        restaurants reservations newId).1 ≠ RsvOutcome.created r)
    ∧ (actor.role = "admin" →
      ∀ uq, (addReservation env actor restaurantId bodyUser bodyDateTime
        restaurants reservations newId).1 ≠ RsvOutcome.errQuota uq) := by
  constructor
  · intro hrole u hu hcount r
    subst hu
    simp only [addReservation]
    repeat' split
    all_goals try simp_all
    all_goals omega
  · intro hrole uq
    simp only [addReservation]
    repeat' split
    all_goals simp_all

theorem c4_reservation_quota_witness :
    (¬ ("user" : String) = "admin") ∧
    3 ≤ (([⟨"a", "u1", "r1", 0, "booked"⟩, ⟨"b", "u1", "r1", 0, "booked"⟩,
          ⟨"c", "u1", "r1", 0, "booked"⟩] : List Reservation).filter
          (fun r => r.user == "u1")).length ∧
    ∀ r, (addReservation (envFix ⟨12, 0, 0⟩ 0) ⟨"u1", "user"⟩ "r1" (some "u1")
        (some "2025-11-02T12:00:00+07:00") [⟨"r1", "10:00", "22:00", none⟩]
        [⟨"a", "u1", "r1", 0, "booked"⟩, ⟨"b", "u1", "r1", 0, "booked"⟩,
         ⟨"c", "u1", "r1", 0, "booked"⟩] "d").1 ≠ RsvOutcome.created r :=
  ⟨by decide, by decide,
    (c4_reservation_quota (envFix ⟨12, 0, 0⟩ 0) ⟨"u1", "user"⟩ "r1" (some "u1")
      (some "2025-11-02T12:00:00+07:00") [⟨"r1", "10:00", "22:00", none⟩]
      [⟨"a", "u1", "r1", 0, "booked"⟩, ⟨"b", "u1", "r1", 0, "booked"⟩,
       ⟨"c", "u1", "r1", 0, "booked"⟩] "d").1 (by decide) "u1" rfl (by decide)⟩

/-- Claim C5: a non-admin supplying an owner identity different from
their own is rejected with the authorization failure and the reservation
list is unchanged — nothing is stored. -/
theorem c5_foreign_owner_rejected
    (env : TimeEnv) (actor : Actor) (restaurantId u : String)
    (bodyDateTime : Option String) (restaurants : List Restaurant)
    (reservations : List Reservation) (newId : String)
    (hu : ¬ u = "") (hne : ¬ u = actor.id) (hrole : ¬ actor.role = "admin") :
    addReservation env actor restaurantId (some u) bodyDateTime restaurants reservations newId
      = (RsvOutcome.errNotAuthorized, reservations) := by
  simp only [addReservation]
  rw [if_neg hu, if_pos ⟨hrole, hne⟩]

theorem c5_foreign_owner_rejected_witness :
    addReservation (envFix ⟨12, 0, 0⟩ 0) ⟨"u1", "user"⟩ "r1" (some "u2") none [] [] "res1"
      = (RsvOutcome.errNotAuthorized, []) :=
  c5_foreign_owner_rejected (envFix ⟨12, 0, 0⟩ 0) ⟨"u1", "user"⟩ "r1" "u2" none [] [] "res1"
    (by decide) (by decide) (by decide)

/-- Claim C9: the quota count in `addReservation` applies no status
filter — it counts every reservation of the target owner.  A non-admin
whose 3 existing reservations all have status `cancelled` or `completed`
(the hypothesis is stated but never needed, which is exactly the point)
is still rejected with the quota error on the next create attempt. -/
theorem c9_quota_ignores_status
    (env : TimeEnv) (actor : Actor) (restaurantId raw : String) (rest : Restaurant)
    (restaurants : List Restaurant) (reservations : List Reservation) (newId : String)
    (hid : ¬ actor.id = "")
    (hrole : ¬ actor.role = "admin")
    (hcount : 3 ≤ (reservations.filter (fun r => r.user == actor.id)).length)
    (_hstatus : ∀ r ∈ reservations.filter (fun r => r.user == actor.id),
        r.status = "cancelled" ∨ r.status = "completed")
    (hfind : restaurants.find? (fun rt => rt.rid == restaurantId) = some rest)
    (hraw : ¬ raw = "")
    (hhours : isWithinWorkingHoursStr env raw rest.openTime rest.closeTime
        (jsOrDefault rest.timezone "Asia/Bangkok") = true) :
    addReservation env actor restaurantId (some actor.id) (some raw) restaurants reservations newId
      = (RsvOutcome.errQuota actor.id, reservations) := by
  simp only [addReservation, hfind]
  rw [if_neg hid, if_neg (fun h => h.2 rfl), if_neg hraw, hhours,
      if_neg (show ¬ (true = false) by simp), if_pos ⟨hcount, hrole⟩]

theorem c9_quota_ignores_status_witness :
    addReservation (envFix ⟨12, 0, 0⟩ 0) ⟨"u1", "user"⟩ "r1" (some "u1")
      (some "2025-11-02T12:00:00+07:00") [⟨"r1", "10:00", "22:00", none⟩]
      [⟨"a", "u1", "r1", 0, "cancelled"⟩, ⟨"b", "u1", "r1", 0, "cancelled"⟩,
       ⟨"c", "u1", "r1", 0, "cancelled"⟩] "d"
      = (RsvOutcome.errQuota "u1",
         [⟨"a", "u1", "r1", 0, "cancelled"⟩, ⟨"b", "u1", "r1", 0, "cancelled"⟩,
          ⟨"c", "u1", "r1", 0, "cancelled"⟩]) :=
  c9_quota_ignores_status (envFix ⟨12, 0, 0⟩ 0) ⟨"u1", "user"⟩ "r1"
    "2025-11-02T12:00:00+07:00" ⟨"r1", "10:00", "22:00", none⟩
    [⟨"r1", "10:00", "22:00", none⟩]
    [⟨"a", "u1", "r1", 0, "cancelled"⟩, ⟨"b", "u1", "r1", 0, "cancelled"⟩,
     ⟨"c", "u1", "r1", 0, "cancelled"⟩] "d"
    (by decide) (by decide) (by decide) (by decide) (by decide) (by decide) (by decide)

/-- Claim C10: when one `updateReservation` request changes both the
restaurant reference and the `dateTime`, the working-hours gate is
evaluated against the restaurant referenced by the STORED reservation:
the outcome is unchanged under any modification of the restaurant store
that preserves the stored reference's lookup (in particular the new
restaurant's window is never consulted), and a successful update stores
the new restaurant reference. -/
theorem c10_hours_checked_against_stored_restaurant :
    (∀ (env : TimeEnv) (actor : Actor) (reservationId : String) (body : UpdateBody)
        (rests1 rests2 : List Restaurant) (reservations : List Reservation) (now : Int)
        (res : Reservation),
      reservations.find? (fun r => r.rid == reservationId) = some res →
      rests1.find? (fun rt => rt.rid == res.restaurant)
        = rests2.find? (fun rt => rt.rid == res.restaurant) →
      updateReservation env actor reservationId body rests1 reservations now
        = updateReservation env actor reservationId body rests2 reservations now)
    ∧ (∀ (env : TimeEnv) (actor : Actor) (reservationId : String) (bu bdt bst : Option String)
        (newR : String) (restaurants : List Restaurant) (reservations : List Reservation)
        (now : Int) (r2 : Reservation) (db2 : List Reservation),
      updateReservation env actor reservationId ⟨bu, bdt, bst, some newR⟩
        restaurants reservations now = (RsvOutcome.updated r2, db2) →
      r2.restaurant = newR) := by
  constructor
  · intro env actor reservationId body rests1 rests2 reservations now res hfind hagree
    simp only [updateReservation, hfind, hagree]
  · intro env actor reservationId bu bdt bst newR restaurants reservations now r2 db2 h
    simp only [updateReservation, updStatusPhase] at h
    repeat' split at h
    all_goals
      first
      | (simp only [Prod.mk.injEq, RsvOutcome.updated.injEq] at h
         rcases h with ⟨h1, h2⟩
         subst h1
         simp [mergeBody])
      | simp at h

theorem c10_hours_checked_against_stored_restaurant_witness :
    (updateReservation (envFix ⟨12, 0, 0⟩ 5) ⟨"u1", "user"⟩ "res1"
        ⟨none, some "2025-11-02T12:00:00+07:00", none, some "r9"⟩
        [⟨"r0", "10:00", "22:00", none⟩, ⟨"r9", "00:00", "00:01", none⟩]
        [⟨"res1", "u1", "r0", 100, "booked"⟩] 0
      = updateReservation (envFix ⟨12, 0, 0⟩ 5) ⟨"u1", "user"⟩ "res1"
        ⟨none, some "2025-11-02T12:00:00+07:00", none, some "r9"⟩
        [⟨"r0", "10:00", "22:00", none⟩, ⟨"r9", "23:00", "23:59", none⟩]
        [⟨"res1", "u1", "r0", 100, "booked"⟩] 0) ∧
    (⟨"res1", "u1", "r9", 5, "booked"⟩ : Reservation).restaurant = "r9" :=
  ⟨c10_hours_checked_against_stored_restaurant.1 (envFix ⟨12, 0, 0⟩ 5) ⟨"u1", "user"⟩ "res1"
      ⟨none, some "2025-11-02T12:00:00+07:00", none, some "r9"⟩
      [⟨"r0", "10:00", "22:00", none⟩, ⟨"r9", "00:00", "00:01", none⟩]
      [⟨"r0", "10:00", "22:00", none⟩, ⟨"r9", "23:00", "23:59", none⟩]
      [⟨"res1", "u1", "r0", 100, "booked"⟩] 0 ⟨"res1", "u1", "r0", 100, "booked"⟩
      (by decide) (by decide),
   c10_hours_checked_against_stored_restaurant.2 (envFix ⟨12, 0, 0⟩ 5) ⟨"u1", "user"⟩ "res1"
      none (some "2025-11-02T12:00:00+07:00") none "r9"
      [⟨"r0", "10:00", "22:00", none⟩, ⟨"r9", "00:00", "00:01", none⟩]
      [⟨"res1", "u1", "r0", 100, "booked"⟩] 0 ⟨"res1", "u1", "r9", 5, "booked"⟩
      [⟨"res1", "u1", "r9", 5, "booked"⟩] (by decide)⟩

theorem JSRat.blt_eq_decide {a b : JSRat} (ha : 0 < a.den) (hb : 0 < b.den) :
    a.blt b = decide (a.toRat < b.toRat) := by
  by_cases h : a.toRat < b.toRat
  · rw [(JSRat.blt_iff_toRat ha hb).2 h, decide_eq_true h]
  · rw [decide_eq_false h]
    cases hblt : a.blt b
    · rfl
    · exact absurd ((JSRat.blt_iff_toRat ha hb).1 hblt) h

theorem JSRat.toRat_zero : (0 : JSRat).toRat = 0 := by
  have h : (0 : JSRat) = ⟨0, 1⟩ := rfl
  rw [h, JSRat.toRat_mk]
  norm_num

theorem JSRat.toRat_five : (5 : JSRat).toRat = 5 := by
  have h : (5 : JSRat) = ⟨5, 1⟩ := rfl
  rw [h, JSRat.toRat_mk]
  norm_num

theorem JSRat.den_ofNat_pos (n : Nat) : 0 < (OfNat.ofNat n : JSRat).den := Nat.one_pos

/-- Claim C6: in `createReview` the checks run in the order
authentication, required `restaurant` field, required `stars` field and
range 0-5, restaurant existence, then existence of at least one
reservation by the author at that restaurant with status exactly
`completed`; the no-completed-reservation rejection is a distinct outcome
from restaurant-not-found and not-authenticated; and once such a
completed reservation exists, creation succeeds for EVERY current review
set (the checks never consult it) — in particular a second review by the
same author at the same restaurant also succeeds. -/
theorem c6_review_creation_gate :
    (∀ (br bm : Option String) (bs : Option JSRat) (restaurants : List Restaurant)
        (reservations : List Reservation) (reviews : List Review),
      (createReview none br bs bm restaurants reservations reviews).1
        = ReviewOutcome.errNotAuthenticated)
    ∧ (∀ (u : String) (bs : Option JSRat) (bm : Option String) (restaurants : List Restaurant)
        (reservations : List Reservation) (reviews : List Review), ¬ u = "" →
      (createReview (some u) none bs bm restaurants reservations reviews).1
        = ReviewOutcome.errRestaurantRequired)
    ∧ (∀ (u rid : String) (bm : Option String) (restaurants : List Restaurant)
        (reservations : List Reservation) (reviews : List Review), ¬ u = "" → ¬ rid = "" →
      (createReview (some u) (some rid) none bm restaurants reservations reviews).1
        = ReviewOutcome.errStarsRequired)
    ∧ (∀ (u rid : String) (s : JSRat) (bm : Option String) (restaurants : List Restaurant)
        (reservations : List Reservation) (reviews : List Review), ¬ u = "" → ¬ rid = "" →
      0 < s.den → (s.toRat < 0 ∨ 5 < s.toRat) →
      (createReview (some u) (some rid) (some s) bm restaurants reservations reviews).1
        = ReviewOutcome.errStarsRange)
    ∧ (∀ (u rid : String) (s : JSRat) (bm : Option String) (restaurants : List Restaurant)
        (reservations : List Reservation) (reviews : List Review), ¬ u = "" → ¬ rid = "" →
      0 < s.den → 0 ≤ s.toRat → s.toRat ≤ 5 →
      restaurants.find? (fun rt => rt.rid == rid) = none →
      (createReview (some u) (some rid) (some s) bm restaurants reservations reviews).1
        = ReviewOutcome.errRestaurantNotFound)
    ∧ (∀ (u rid : String) (s : JSRat) (bm : Option String) (rest : Restaurant)
        (restaurants : List Restaurant) (reservations : List Reservation)
        (reviews : List Review),
      ¬ u = "" → ¬ rid = "" → 0 < s.den → 0 ≤ s.toRat → s.toRat ≤ 5 →
      restaurants.find? (fun rt => rt.rid == rid) = some rest →
      reservations.find? (fun r => r.user == u && r.restaurant == rid &&
        r.status == "completed") = none →
      (createReview (some u) (some rid) (some s) bm restaurants reservations reviews).1
        = ReviewOutcome.errNoCompletedReservation)
    ∧ (ReviewOutcome.errNoCompletedReservation ≠ ReviewOutcome.errRestaurantNotFound
       ∧ ReviewOutcome.errNoCompletedReservation ≠ ReviewOutcome.errNotAuthenticated)
    ∧ (∀ (u rid : String) (s : JSRat) (bm : Option String) (rest : Restaurant)
        (r0 : Reservation) (restaurants : List Restaurant) (reservations : List Reservation),
      ¬ u = "" → ¬ rid = "" → 0 < s.den → 0 ≤ s.toRat → s.toRat ≤ 5 →
      restaurants.find? (fun rt => rt.rid == rid) = some rest →
      reservations.find? (fun r => r.user == u && r.restaurant == rid &&
        r.status == "completed") = some r0 →
      ∀ reviews : List Review,
        createReview (some u) (some rid) (some s) bm restaurants reservations reviews
          = (ReviewOutcome.created ⟨u, rid, s, bm⟩, reviews ++ [⟨u, rid, s, bm⟩])) := by
  refine ⟨?_, ?_, ?_, ?_, ?_, ?_, ⟨by simp, by simp⟩, ?_⟩
  · intro br bm bs restaurants reservations reviews
    simp only [createReview]
  · intro u bs bm restaurants reservations reviews hu
    simp only [createReview]
    rw [if_neg hu]
  · intro u rid bm restaurants reservations reviews hu hrid
    simp only [createReview]
    rw [if_neg hu, if_neg hrid]
  · intro u rid s bm restaurants reservations reviews hu hrid hden hrange
    simp only [createReview]
    rw [if_neg hu, if_neg hrid,
        JSRat.blt_eq_decide hden (JSRat.den_ofNat_pos 0),
        JSRat.blt_eq_decide (JSRat.den_ofNat_pos 5) hden,
        JSRat.toRat_zero, JSRat.toRat_five,
        if_pos (by rcases hrange with h | h <;> simp [h])]
  · intro u rid s bm restaurants reservations reviews hu hrid hden h0 h5 hfindR
    have hb : (s.blt 0 || JSRat.blt 5 s) = false := by
      rw [JSRat.blt_eq_decide hden (JSRat.den_ofNat_pos 0),
          JSRat.blt_eq_decide (JSRat.den_ofNat_pos 5) hden,
          JSRat.toRat_zero, JSRat.toRat_five,
          decide_eq_false (not_lt.2 h0), decide_eq_false (not_lt.2 h5), Bool.or_false]
    simp only [createReview, hfindR]
    rw [if_neg hu, if_neg hrid, hb, if_neg (show ¬ (false = true) by simp)]
  · intro u rid s bm rest restaurants reservations reviews hu hrid hden h0 h5 hfindR hfindC
    have hb : (s.blt 0 || JSRat.blt 5 s) = false := by
      rw [JSRat.blt_eq_decide hden (JSRat.den_ofNat_pos 0),
          JSRat.blt_eq_decide (JSRat.den_ofNat_pos 5) hden,
          JSRat.toRat_zero, JSRat.toRat_five,
          decide_eq_false (not_lt.2 h0), decide_eq_false (not_lt.2 h5), Bool.or_false]
    simp only [createReview, hfindR, hfindC]
    rw [if_neg hu, if_neg hrid, hb, if_neg (show ¬ (false = true) by simp)]
  · intro u rid s bm rest r0 restaurants reservations hu hrid hden h0 h5 hfindR hfindC reviews
    have hb : (s.blt 0 || JSRat.blt 5 s) = false := by
      rw [JSRat.blt_eq_decide hden (JSRat.den_ofNat_pos 0),
          JSRat.blt_eq_decide (JSRat.den_ofNat_pos 5) hden,
          JSRat.toRat_zero, JSRat.toRat_five,
          decide_eq_false (not_lt.2 h0), decide_eq_false (not_lt.2 h5), Bool.or_false]
    simp only [createReview, hfindR, hfindC]
    rw [if_neg hu, if_neg hrid, hb, if_neg (show ¬ (false = true) by simp)]

theorem c6_review_creation_gate_witness :
    (createReview (some "u1") (some "r1") (some ⟨5, 1⟩) none
        [⟨"r1", "10:00", "22:00", none⟩] [⟨"a", "u1", "r1", 0, "booked"⟩] []).1
      = ReviewOutcome.errNoCompletedReservation ∧
    createReview (some "u1") (some "r1") (some ⟨5, 1⟩) none
        [⟨"r1", "10:00", "22:00", none⟩] [⟨"a", "u1", "r1", 0, "completed"⟩] []
      = (ReviewOutcome.created ⟨"u1", "r1", ⟨5, 1⟩, none⟩, [⟨"u1", "r1", ⟨5, 1⟩, none⟩]) ∧
    createReview (some "u1") (some "r1") (some ⟨5, 1⟩) none
        [⟨"r1", "10:00", "22:00", none⟩] [⟨"a", "u1", "r1", 0, "completed"⟩]
        [⟨"u1", "r1", ⟨5, 1⟩, none⟩]
      = (ReviewOutcome.created ⟨"u1", "r1", ⟨5, 1⟩, none⟩,
         [⟨"u1", "r1", ⟨5, 1⟩, none⟩, ⟨"u1", "r1", ⟨5, 1⟩, none⟩]) :=
  ⟨c6_review_creation_gate.2.2.2.2.2.1 "u1" "r1" ⟨5, 1⟩ none ⟨"r1", "10:00", "22:00", none⟩
      [⟨"r1", "10:00", "22:00", none⟩] [⟨"a", "u1", "r1", 0, "booked"⟩] []
      (by decide) (by decide) (by decide) (by norm_num [JSRat.toRat])
      (by norm_num [JSRat.toRat]) (by decide) (by decide),
   c6_review_creation_gate.2.2.2.2.2.2.2 "u1" "r1" ⟨5, 1⟩ none ⟨"r1", "10:00", "22:00", none⟩
      ⟨"a", "u1", "r1", 0, "completed"⟩ [⟨"r1", "10:00", "22:00", none⟩]
      [⟨"a", "u1", "r1", 0, "completed"⟩]
      (by decide) (by decide) (by decide) (by norm_num [JSRat.toRat])
      (by norm_num [JSRat.toRat]) (by decide) (by decide) [],
   c6_review_creation_gate.2.2.2.2.2.2.2 "u1" "r1" ⟨5, 1⟩ none ⟨"r1", "10:00", "22:00", none⟩
      ⟨"a", "u1", "r1", 0, "completed"⟩ [⟨"r1", "10:00", "22:00", none⟩]
      [⟨"a", "u1", "r1", 0, "completed"⟩]
      (by decide) (by decide) (by decide) (by norm_num [JSRat.toRat])
      (by norm_num [JSRat.toRat]) (by decide) (by decide) [⟨"u1", "r1", ⟨5, 1⟩, none⟩]⟩

theorem JSRat.add_toRat {a b : JSRat} (ha : 0 < a.den) (hb : 0 < b.den) :
    (a.add b).toRat = a.toRat + b.toRat := by
  have ha2 : ((a.den : ℚ)) ≠ 0 := by exact_mod_cast ha.ne'
  have hb2 : ((b.den : ℚ)) ≠ 0 := by exact_mod_cast hb.ne'
  rw [add, toRat_mk, toRat, toRat]
  push_cast
  field_simp

theorem JSRat.divNat_toRat (a : JSRat) (n : ℕ) :
    (a.divNat n).toRat = a.toRat / n := by
  rw [divNat, toRat_mk, toRat]
  push_cast
  rw [div_div]

theorem foldl_add_den_pos (l : List JSRat) (acc : JSRat) (hacc : 0 < acc.den)
    (h : ∀ x ∈ l, 0 < x.den) : 0 < (l.foldl JSRat.add acc).den := by
  induction l generalizing acc with
  | nil => simpa using hacc
  | cons x xs ih =>
    simp only [List.foldl_cons]
    refine ih _ ?_ (fun y hy => h y (List.mem_cons_of_mem _ hy))
    have hx : 0 < x.den := h x (List.mem_cons_self _ _)
    simpa [JSRat.add] using Nat.mul_pos hacc hx

theorem foldl_add_toRat (l : List JSRat) (acc : JSRat) (hacc : 0 < acc.den)
    (h : ∀ x ∈ l, 0 < x.den) :
    (l.foldl JSRat.add acc).toRat = acc.toRat + (l.map JSRat.toRat).sum := by
  induction l generalizing acc with
  | nil => simp
  | cons x xs ih =>
    have hx : 0 < x.den := h x (List.mem_cons_self _ _)
    have hax : 0 < (acc.add x).den := by
      simpa [JSRat.add] using Nat.mul_pos hacc hx
    simp only [List.foldl_cons, List.map_cons, List.sum_cons]
    rw [ih (acc.add x) hax (fun y hy => h y (List.mem_cons_of_mem _ hy)),
        JSRat.add_toRat hacc hx]
    ring

theorem listSumJS_den_pos (l : List JSRat) (h : ∀ x ∈ l, 0 < x.den) :
    0 < (listSumJS l).den :=
  foldl_add_den_pos l 0 Nat.one_pos h

theorem listSumJS_toRat (l : List JSRat) (h : ∀ x ∈ l, 0 < x.den) :
    (listSumJS l).toRat = (l.map JSRat.toRat).sum := by
  rw [listSumJS, foldl_add_toRat l 0 Nat.one_pos h, JSRat.toRat_zero, zero_add]

/-- Modelled from the spec: "rounded to 2 decimal places" — the nearest
multiple of 1/100, taking the larger candidate on a tie (the choice the
`toFixed` specification makes for the produced digit string). -/
def round2 (x : ℚ) : ℚ := ((⌊x * 100 + 1 / 2⌋ : ℤ) : ℚ) / 100

theorem jsToFixed2_toRat {q : JSRat} (hq : 0 < q.den) :
    (jsToFixed2 q).toRat = round2 q.toRat := by
  have hqz : ((q.den : ℚ)) ≠ 0 := by exact_mod_cast hq.ne'
  have key : q.toRat * 100 + 1 / 2
      = ((q.num * 200 + (q.den : ℤ) : ℤ) : ℚ) / ((2 * q.den : ℕ) : ℚ) := by
    rw [JSRat.toRat]
    push_cast
    field_simp
    ring
  rw [round2, key, Rat.floor_intCast_div_natCast, jsToFixed2, JSRat.toRat_mk]
  rw [Int.fdiv_eq_ediv _ (by positivity)]
  push_cast
  norm_num

/-- The star values (as rationals) of the restaurant's current reviews. -/
def starsOf (reviews : List Review) (restaurantId : String) : List ℚ :=
  (reviews.filter (fun rv => rv.restaurant == restaurantId)).map (fun rv => rv.stars.toRat)

/-- Claim C7: recomputing the aggregate sets `reviewCount` to the number
of the restaurant's currently-existing reviews and `averageRating` to the
arithmetic mean of their star values rounded to 2 decimal places; with no
reviews the pair is exactly `(0, 0)` — and on stars `[5, 4, 3]` the result
is average 4.00 with count 3, after removing the 4 it stays 4.00 with
count 2, and on the empty set it is `(0, 0)`. -/
theorem c7_rating_aggregate :
    (∀ (reviews : List Review) (rid : String) (avg : JSRat) (cnt : ℕ),
      ¬ rid = "" →
      (∀ rv ∈ reviews.filter (fun rv => rv.restaurant == rid), 0 < rv.stars.den) →
      updateRestaurantRating reviews rid = some (avg, cnt) →
      (cnt = (reviews.filter (fun rv => rv.restaurant == rid)).length
        ∧ (reviews.filter (fun rv => rv.restaurant == rid) = [] → avg = 0 ∧ cnt = 0)
        ∧ (¬ reviews.filter (fun rv => rv.restaurant == rid) = [] →
            avg.toRat = round2 ((starsOf reviews rid).sum / (cnt : ℚ)))))
    ∧ updateRestaurantRating
        [⟨"u1", "r1", ⟨5, 1⟩, none⟩, ⟨"u1", "r1", ⟨4, 1⟩, none⟩, ⟨"u2", "r1", ⟨3, 1⟩, none⟩]
        "r1" = some (⟨400, 100⟩, 3)
    ∧ updateRestaurantRating [⟨"u1", "r1", ⟨5, 1⟩, none⟩, ⟨"u2", "r1", ⟨3, 1⟩, none⟩]
        "r1" = some (⟨400, 100⟩, 2)
    ∧ JSRat.toRat ⟨400, 100⟩ = 4
    ∧ updateRestaurantRating [] "r1" = some (0, 0) := by
  refine ⟨?_, by decide, by decide, ?_, by decide⟩
  · intro reviews rid avg cnt hrid hdens hupd
    simp only [updateRestaurantRating, reviewStats] at hupd
    rw [if_neg hrid] at hupd
    by_cases hemp : reviews.filter (fun rv => rv.restaurant == rid) = []
    · rw [hemp] at hupd
      simp only [List.isEmpty_nil, if_true, Option.some.injEq, Prod.mk.injEq] at hupd
      obtain ⟨h1, h2⟩ := hupd
      subst h1
      subst h2
      refine ⟨by rw [hemp]; rfl, fun _ => ⟨rfl, rfl⟩, fun hne => absurd hemp hne⟩
    · have hne2 : ((reviews.filter (fun rv => rv.restaurant == rid)).isEmpty) = false := by
        simpa [List.isEmpty_iff] using hemp
      rw [hne2] at hupd
      simp only [Bool.false_eq_true, if_false, Option.some.injEq, Prod.mk.injEq] at hupd
      obtain ⟨h1, h2⟩ := hupd
      subst h1
      subst h2
      refine ⟨rfl, fun h => absurd h hemp, fun _ => ?_⟩
      have hmapden : ∀ x ∈ (reviews.filter (fun rv => rv.restaurant == rid)).map Review.stars,
          0 < x.den := by
        intro x hx
        rcases List.mem_map.1 hx with ⟨rv, hrv, rfl⟩
        exact hdens rv hrv
      have hsden : 0 <
          (listSumJS ((reviews.filter (fun rv => rv.restaurant == rid)).map Review.stars)).den :=
        listSumJS_den_pos _ hmapden
      have hlen : 0 < (reviews.filter (fun rv => rv.restaurant == rid)).length :=
        List.length_pos.2 hemp
      have hdden : 0 <
          ((listSumJS ((reviews.filter (fun rv => rv.restaurant == rid)).map Review.stars)).divNat
            (reviews.filter (fun rv => rv.restaurant == rid)).length).den := by
        simpa [JSRat.divNat] using Nat.mul_pos hsden hlen
      have hstars :
          (((reviews.filter (fun rv => rv.restaurant == rid)).map Review.stars).map JSRat.toRat)
            = starsOf reviews rid := by
        rw [List.map_map, starsOf]
        rfl
      rw [jsToFixed2_toRat hdden, JSRat.divNat_toRat, listSumJS_toRat _ hmapden, hstars]
  · rw [JSRat.toRat_mk]
    norm_num

theorem c7_rating_aggregate_witness :
    (¬ ("r1" : String) = "") ∧
    3 = (([⟨"u1", "r1", ⟨5, 1⟩, none⟩, ⟨"u1", "r1", ⟨4, 1⟩, none⟩,
           ⟨"u2", "r1", ⟨3, 1⟩, none⟩] : List Review).filter
          (fun rv => rv.restaurant == "r1")).length :=
  ⟨by decide,
    (c7_rating_aggregate.1
      [⟨"u1", "r1", ⟨5, 1⟩, none⟩, ⟨"u1", "r1", ⟨4, 1⟩, none⟩, ⟨"u2", "r1", ⟨3, 1⟩, none⟩]
      "r1" ⟨400, 100⟩ 3 (by decide) (by decide) (by decide)).1⟩
